import Mathlib

/-!
Shallow embedding of `src/any.hpp`: a fixed-capacity, type-erasing value
container `static_any<N>` with a per-type dispatch function, typed accessors
(`any_cast` in pointer and reference form, `get`), and a degenerate
trivially-copyable variant `static_any_t<N>`.

Modelling choices:
* A concrete (cv-unqualified, non-reference) C++ type is a `TypeInfo`: its
  `typeid` identity (`tid`), its `sizeof` (`size`), the payload its objects are
  left with after being moved from (`movedFrom`; `none` means moving leaves the
  source unchanged, as for scalar types), and whether it is trivially copyable.
  Stored values are modelled by a `Nat` payload; copy construction
  (`new(this) T(*other)`) produces a value equal to the source and leaves the
  source untouched, move construction produces an equal value and puts the
  source into its moved-from state.  A `typeid` identity determines the type,
  and `typeid(void)` is the reserved identity `voidTypeId`.
* A type as written at a call site (template argument) is a `DeclType`: a base
  `TypeInfo` possibly decorated with const/volatile qualifiers or a reference.
  `detail::static_any::get_function_for_type<T>` instantiates
  `operation<remove_cv_t<remove_reference_t<T>>>`, i.e. returns the dispatch
  function of the base type; C++ `typeid(T)` likewise ignores top-level
  cv-qualifiers and references.
* The per-instance dispatch function pointer `function_` is modelled by
  `Option TypeInfo` (`none` = `nullptr`); function-pointer equality is equality
  of the instantiating type.
* A compile-time rejection (`static_assert` failure) is modelled by an
  operation returning `none` : the call site does not compile.  Operations
  without a `static_assert` are total, mirroring the absence of any check.
* The raw byte buffer `buff_` of `static_any` keeps its last payload after
  `destroy()` (the destructor does not scrub bytes); a default-constructed
  container has an arbitrary garbage payload, which theorems quantify over.
-/

/-- `detail::static_any::operation_t`: the four operations a per-type dispatch
function can perform. -/
inductive operation_t where
  | query_type : operation_t
  | copy : operation_t
  | move : operation_t
  | destroy : operation_t
deriving DecidableEq, Repr

/-- A concrete C++ type: `typeid` identity, `sizeof`, moved-from payload
(`none` = moving leaves the source unchanged), trivial copyability. -/
structure TypeInfo where
  tid : Nat
  size : Nat
  movedFrom : Option Nat
  triviallyCopyable : Bool
deriving DecidableEq, Repr

/-- The reserved `typeid(void)` identity returned by `type()` on an empty
container. -/
def voidTypeId : Nat := 0

/-- A type as written at a call site: a base `TypeInfo` possibly decorated
with top-level const/volatile qualifiers or a reference. -/
structure DeclType where
  base : TypeInfo
  isConst : Bool
  isVolatile : Bool
  isRef : Bool
deriving DecidableEq, Repr

/-- C++ `typeid(T)` for a possibly decorated type: top-level cv-qualifiers and
references are ignored, so it is the base type's identity. -/
def typeid_of (D : DeclType) : Nat := D.base.tid

/-- `detail::static_any::operation<_T>`: the per-type dispatch routine.  It
receives the operation selector and the payloads behind `this_ptr` and
`other_ptr`, returns `typeid(_T)` together with the two payloads after the
operation:
* `query_type`: nothing happens to the payloads;
* `copy`: `new(this_ptr) _T(*other_ptr)` — `this` becomes a value equal to
  `other`, `other` is not modified;
* `move`: `new(this_ptr) _T(std::move(*other_ptr))` — `this` takes `other`'s
  value, `other` is left in its moved-from state;
* `destroy`: `this_ptr->~_T()` — the destructor runs; the raw bytes behind
  `this_ptr` are not scrubbed. -/
def operation (T : TypeInfo) (op : operation_t) (this_v other_v : Nat) :
    Nat × Nat × Nat :=
  match op with
  | operation_t.query_type => (T.tid, this_v, other_v)
  | operation_t.copy => (T.tid, other_v, other_v)
  | operation_t.move => (T.tid, other_v, T.movedFrom.getD other_v)
  | operation_t.destroy => (T.tid, this_v, other_v)

/-- `detail::static_any::get_function_for_type<_T>`: returns the dispatch
function instantiated at `remove_cv_t<remove_reference_t<_T>>`, identified by
that stripped type. -/
def get_function_for_type (D : DeclType) : TypeInfo := D.base

/-- `static_any<N>`: the raw buffer's current payload and the dispatch
function pointer `function_` (`none` = `nullptr` = empty). -/
structure static_any (N : Nat) where
  buff : Nat
  function_ : Option TypeInfo
deriving DecidableEq, Repr

/-- `static_any<N>::capacity()`. -/
def static_any.capacity (N : Nat) : Nat := N

/-- `static_any<N>::empty()`: `function_ == nullptr`. -/
def static_any.empty {N : Nat} (a : static_any N) : Bool :=
  a.function_.isNone

/-- A default-constructed `static_any<N>`: `function_` is `nullptr`, the
buffer holds arbitrary garbage `g`. -/
def static_any.mkDefault (N : Nat) (g : Nat) : static_any N :=
  { buff := g, function_ := none }

/-- `static_any<N>::type()`: `typeid(void)` when empty, otherwise the result
of dispatching `query_type` through `function_`. -/
def static_any.type {N : Nat} (a : static_any N) : Nat :=
  match a.function_ with
  | none => voidTypeId
  | some F => (operation F operation_t.query_type a.buff 0).1

/-- `static_any<N>::has<_T>()`: fast function-pointer comparison against
`get_function_for_type<_T>()`, then (when non-empty) the cross-DLL fallback
comparing `typeid(_T)` with the identity reported by
`function_(query_type, ...)`. -/
def static_any.has {N : Nat} (D : DeclType) (a : static_any N) : Bool :=
  match a.function_ with
  | none => false
  | some F =>
    if F = get_function_for_type D then true
    else decide (typeid_of D = (operation F operation_t.query_type 0 0).1)

/-- `static_any<N>::destroy()`: when non-empty, dispatches `destroy` through
`function_` and nulls it; the buffer bytes are not scrubbed. -/
def static_any.destroy {N : Nat} (a : static_any N) : static_any N :=
  match a.function_ with
  | none => a
  | some F =>
    { buff := (operation F operation_t.destroy a.buff 0).2.1, function_ := none }

/-- `static_any<N>::reset()`: forwards to `destroy()`. -/
def static_any.reset {N : Nat} (a : static_any N) : static_any N :=
  a.destroy

/-- `static_any<N>::call_function<Ref>`: dispatches `move` when `Ref` is an
rvalue reference, `copy` otherwise. -/
def call_function (F : TypeInfo) (isRvalueRef : Bool) (this_v other_v : Nat) :
    Nat × Nat × Nat :=
  operation F (if isRvalueRef then operation_t.move else operation_t.copy)
    this_v other_v

/-- `static_any<N>::copy_or_move<_T>(_T&& t)`: guarded by
`static_assert(capacity() >= sizeof(_T))` (a compile-time rejection, modelled
as `none`; `sizeof` of a reference type is the referred type's size).  On
success installs `get_function_for_type<_T>()` and dispatches copy or move
from the external value `v` into the buffer, as `call_function<_T&&>` selects.
Returns the new container state and the external value's payload afterwards
(moved-from when a move was dispatched).  The source asserts
`function_ == nullptr`; every call site reaches it with an empty container. -/
def static_any.copy_or_move {N : Nat} (D : DeclType) (isRvalue : Bool)
    (v : Nat) (a : static_any N) : Option (static_any N × Nat) :=
  if D.base.size ≤ static_any.capacity N then
    let F := get_function_for_type D
    let r := call_function F isRvalue a.buff v
    some ({ buff := r.2.1, function_ := some F }, r.2.2)
  else none

/-- `static_any<N>::static_any(_T&& v)`: construction from a value; the fresh
container's buffer holds garbage `g`; delegates to `copy_or_move`. -/
def static_any.ctor_from_value (N : Nat) (D : DeclType) (isRvalue : Bool)
    (v g : Nat) : Option (static_any N × Nat) :=
  static_any.copy_or_move D isRvalue v (static_any.mkDefault N g)

/-- `static_any<N>::operator=(_T&&)` / `operator=(const _T&)`: destroys the
current value, then delegates to `copy_or_move`. -/
def static_any.assign_from_value {N : Nat} (a : static_any N) (D : DeclType)
    (isRvalue : Bool) (v : Nat) : Option (static_any N × Nat) :=
  static_any.copy_or_move D isRvalue v a.destroy

/-- `static_any<N>::copy_from_another(const static_any<M>&)`: when the source
is non-empty, takes over its `function_` and dispatches
`operation_t::copy` from the source buffer into this buffer — unconditionally
`copy`, never `move`.  Returns the updated destination and source states. -/
def static_any.copy_from_another {N M : Nat} (a : static_any N)
    (another : static_any M) : static_any N × static_any M :=
  match another.function_ with
  | none => (a, another)
  | some F =>
    let r := operation F operation_t.copy a.buff another.buff
    ({ buff := r.2.1, function_ := some F }, { another with buff := r.2.2 })

/-- `static_any<N>::static_any(static_any<M>&& another)`: the move constructor
body only calls `copy_from_another(another)` on a fresh container (buffer
garbage `g`).  Returns the new container and the source afterwards. -/
def static_any.move_ctor_from_any (N : Nat) {M : Nat} (another : static_any M)
    (g : Nat) : static_any N × static_any M :=
  static_any.copy_from_another (static_any.mkDefault N g) another

/-- `static_any<N>::operator=(static_any<M>&& another)`: `destroy()` then
`copy_from_another(another)`.  Returns the new container and the source
afterwards. -/
def static_any.move_assign_from_any {N M : Nat} (a : static_any N)
    (another : static_any M) : static_any N × static_any M :=
  static_any.copy_from_another a.destroy another

/-- `static_any<N>::emplace<_T>(args...)`: `destroy()`, placement-new of a
`_T` from the constructor arguments (the constructed value's payload is `v`),
then install `get_function_for_type<_T>()`.  The source contains no
`static_assert` and no capacity check of any kind, so this is total. -/
def static_any.emplace {N : Nat} (D : DeclType) (v : Nat) (a : static_any N) :
    static_any N :=
  let a1 := a.destroy
  { a1 with buff := v, function_ := some (get_function_for_type D) }

/-- `bad_any_cast`: carries the stored type's identity (`from_`) and the
requested type's identity (`to_`). -/
structure bad_any_cast where
  from_ : Nat
  to_ : Nat
deriving DecidableEq, Repr

/-- `any_cast<_ValueT>(static_any<_S>* a)`: `nullptr` when `has<_ValueT>()`
fails, otherwise a pointer to the buffer reinterpreted as `_ValueT` (modelled
by the held payload).  Total: it never signals a failure. -/
def any_cast_ptr {N : Nat} (D : DeclType) (a : static_any N) : Option Nat :=
  if a.has D then some a.buff else none

/-- `any_cast<_ValueT>(static_any<_S>& a)`: throws
`bad_any_cast(a.type(), typeid(_ValueT))` when `has<_ValueT>()` fails,
otherwise returns a reference to the buffer reinterpreted as `_ValueT`. -/
def any_cast_ref {N : Nat} (D : DeclType) (a : static_any N) :
    Except bad_any_cast Nat :=
  if a.has D then Except.ok a.buff
  else Except.error { from_ := a.type, to_ := typeid_of D }

/-- `static_any<_S>::get<_T>()`: forwards to the reference `any_cast`. -/
def static_any.get {N : Nat} (D : DeclType) (a : static_any N) :
    Except bad_any_cast Nat :=
  any_cast_ref D a

/-- `static_any_t<N>`: the degenerate trivially-copyable variant — a bare
byte buffer of capacity `N`, no discriminant.  Bytes are modelled
explicitly as a list so that `memcpy` of `sizeof(_ValueT)` bytes is exact. -/
structure static_any_t (N : Nat) where
  buff : List Nat
deriving DecidableEq, Repr

/-- `std::memcpy(buff_.data(), &t, sizeof(_ValueT))`: overwrite the first
`src.length` bytes of the buffer with `src`, keep the rest. -/
def memcpy_front (dst src : List Nat) : List Nat :=
  src ++ dst.drop src.length

/-- `static_any_t<N>::copy<_ValueT>(_ValueT&& t)`: guarded by
`static_assert(is_trivially_copyable<_ValueT>)` and
`static_assert(capacity() >= sizeof(_ValueT))` (compile-time rejections,
modelled as `none`); on success `memcpy`s the value's `sizeof(_ValueT)`-byte
representation into the front of the buffer. -/
def static_any_t.copy {N : Nat} (T : TypeInfo) (bytes : List Nat)
    (a : static_any_t N) : Option (static_any_t N) :=
  if T.triviallyCopyable = true ∧ T.size ≤ N then
    some { buff := memcpy_front a.buff bytes }
  else none

/-- `static_any_t<N>::static_any_t(_ValueT&& t)`: fresh buffer of garbage
bytes `g`, then `copy`. -/
def static_any_t.ctor_from_value (N : Nat) (T : TypeInfo) (bytes g : List Nat) :
    Option (static_any_t N) :=
  static_any_t.copy T bytes ({ buff := g } : static_any_t N)

/-- `static_any_t<N>::operator=(_ValueT&& t)`: forwards to `copy`. -/
def static_any_t.assign_from_value {N : Nat} (a : static_any_t N)
    (T : TypeInfo) (bytes : List Nat) : Option (static_any_t N) :=
  static_any_t.copy T bytes a

/-- `static_any_t<N>::get<_ValueT>()`: reinterpret the buffer as `_ValueT`,
i.e. read its first `sizeof(_ValueT)` bytes; no type tracking. -/
def static_any_t.get {N : Nat} (T : TypeInfo) (a : static_any_t N) :
    List Nat :=
  a.buff.take T.size

/-!
Theorems: one per claim of the specification, with witnesses instantiating
each hypothesis at concrete inputs.
-/

/-- C1: for every pair of safe containers, constructing or assigning from
another container through a move-flavored call (move constructor or move
assignment) with a non-empty source replicates the held value using the
source type's copy operation (the destination receives an equal value, as
`operation_t::copy` produces), and afterwards the source container's
discriminant and held value are unchanged — the source is not emptied and is
not put into a moved-from state. -/
theorem c1_move_flavored_transfer_copies_and_preserves_source
    {N M : Nat} (another : static_any M) (F : TypeInfo)
    (h : another.function_ = some F) (g : Nat) (a : static_any N) :
    (static_any.move_ctor_from_any N another g).1.function_ = some F ∧
    (static_any.move_ctor_from_any N another g).1.buff = another.buff ∧
    (static_any.move_ctor_from_any N another g).2 = another ∧
    (a.move_assign_from_any another).1.function_ = some F ∧
    (a.move_assign_from_any another).1.buff = another.buff ∧
    (a.move_assign_from_any another).2 = another := by
  obtain ⟨b, f⟩ := another
  cases h
  simp [static_any.move_ctor_from_any, static_any.move_assign_from_any,
    static_any.copy_from_another, static_any.mkDefault, operation]

/-- C1 witness: a capacity-8 container holding the type with identity 1
(moved-from payload 0) and value 42, moved-from into fresh and occupied
capacity-8 containers. -/
theorem c1_witness :
    (static_any.move_ctor_from_any 8
        (⟨42, some ⟨1, 4, some 0, true⟩⟩ : static_any 8) 7).1.function_ =
      some ⟨1, 4, some 0, true⟩ ∧
    (static_any.move_ctor_from_any 8
        (⟨42, some ⟨1, 4, some 0, true⟩⟩ : static_any 8) 7).1.buff = 42 ∧
    (static_any.move_ctor_from_any 8
        (⟨42, some ⟨1, 4, some 0, true⟩⟩ : static_any 8) 7).2 =
      ⟨42, some ⟨1, 4, some 0, true⟩⟩ ∧
    ((⟨9, some ⟨2, 2, none, true⟩⟩ : static_any 8).move_assign_from_any
        (⟨42, some ⟨1, 4, some 0, true⟩⟩ : static_any 8)).1.function_ =
      some ⟨1, 4, some 0, true⟩ ∧
    ((⟨9, some ⟨2, 2, none, true⟩⟩ : static_any 8).move_assign_from_any
        (⟨42, some ⟨1, 4, some 0, true⟩⟩ : static_any 8)).1.buff = 42 ∧
    ((⟨9, some ⟨2, 2, none, true⟩⟩ : static_any 8).move_assign_from_any
        (⟨42, some ⟨1, 4, some 0, true⟩⟩ : static_any 8)).2 =
      ⟨42, some ⟨1, 4, some 0, true⟩⟩ :=
  c1_move_flavored_transfer_copies_and_preserves_source
    (⟨42, some ⟨1, 4, some 0, true⟩⟩ : static_any 8) ⟨1, 4, some 0, true⟩ rfl 7
    (⟨9, some ⟨2, 2, none, true⟩⟩ : static_any 8)

/-- C2 counterexample: the claim states that every way of storing a value —
including `emplace<T>(args...)` — is rejected at compile time when
`sizeof(T)` exceeds `N`.  But `emplace` contains no `static_assert` (and no
check of any kind): emplacing a type of size 8 into a `static_any<1>` is not
rejected; it installs the type's dispatch function and the container then
reports `has<T>() = true`. -/
theorem c2_counterexample_emplace_oversized_not_rejected :
    ((static_any.mkDefault 1 0).emplace ⟨⟨1, 8, none, true⟩, false, false, false⟩
        42).has ⟨⟨1, 8, none, true⟩, false, false, false⟩ = true ∧
    ((static_any.mkDefault 1 0).emplace ⟨⟨1, 8, none, true⟩, false, false, false⟩
        42).function_ = some ⟨1, 8, none, true⟩ := by
  decide

/-- C2 amended: construction from a value and assignment from a value are
rejected at compile time (by the `static_assert` in `copy_or_move`) whenever
`sizeof(T)` exceeds the capacity `N`, so on those paths a capacity violation
is never a runtime condition; `emplace<T>`, however, performs no capacity
check at all — it stores the type regardless of size. -/
theorem c2_value_paths_rejected_at_compile_time_but_not_emplace
    {N : Nat} (D : DeclType) (isRvalue : Bool) (v g : Nat) (a : static_any N)
    (h : static_any.capacity N < D.base.size) :
    static_any.ctor_from_value N D isRvalue v g = none ∧
    a.assign_from_value D isRvalue v = none ∧
    (a.emplace D v).has D = true := by
  refine ⟨?_, ?_, ?_⟩
  · simp [static_any.ctor_from_value, static_any.copy_or_move,
      Nat.not_le_of_lt h]
  · simp [static_any.assign_from_value, static_any.copy_or_move,
      Nat.not_le_of_lt h]
  · simp [static_any.emplace, static_any.has, get_function_for_type]

/-- C2 witness: a type of size 8 against capacity 1. -/
theorem c2_witness :
    static_any.ctor_from_value 1 ⟨⟨1, 8, none, true⟩, false, false, false⟩
        true 42 0 = none ∧
    (static_any.mkDefault 1 0).assign_from_value
        ⟨⟨1, 8, none, true⟩, false, false, false⟩ true 42 = none ∧
    ((static_any.mkDefault 1 0).emplace
        ⟨⟨1, 8, none, true⟩, false, false, false⟩ 42).has
      ⟨⟨1, 8, none, true⟩, false, false, false⟩ = true :=
  c2_value_paths_rejected_at_compile_time_but_not_emplace
    ⟨⟨1, 8, none, true⟩, false, false, false⟩ true 42 0
    (static_any.mkDefault 1 0) (by decide)

/-- C3: for every type T with `sizeof(T) ≤ N` and every value v of type T,
constructing a `static_any<N>` from v (by copy or by move) and then
extracting via the reference accessor `get<T>()` (which forwards to
`any_cast<T>`) yields a value equal to v. -/
theorem c3_construct_then_get_roundtrip
    {N : Nat} (D : DeclType) (isRvalue : Bool) (v g : Nat)
    (h : D.base.size ≤ N) :
    (static_any.ctor_from_value N D isRvalue v g).map
      (fun p => p.1.get D) = some (Except.ok v) := by
  cases isRvalue <;>
    simp [static_any.ctor_from_value, static_any.copy_or_move,
      static_any.mkDefault, static_any.capacity, h, call_function, operation,
      static_any.get, any_cast_ref, static_any.has, get_function_for_type]

/-- C3 witness: the value 42 of a 4-byte type stored in a `static_any<16>`. -/
theorem c3_witness :
    (static_any.ctor_from_value 16 ⟨⟨1, 4, none, true⟩, false, false, false⟩
        false 42 0).map
      (fun p => p.1.get ⟨⟨1, 4, none, true⟩, false, false, false⟩) =
      some (Except.ok 42) :=
  c3_construct_then_get_roundtrip ⟨⟨1, 4, none, true⟩, false, false, false⟩
    false 42 0 (by decide)

/-- C4: the reference-returning accessor returns (a reference to) the held
value when `has<T>()` holds, and otherwise raises `bad_any_cast` carrying the
actual stored-type identity (`a.type()`) and the requested-type identity
(`typeid(T)`); when two requested types both fail on the same container, the
two failures share the same stored field and differ only in the requested
field. -/
theorem c4_any_cast_ref_success_and_typed_failure
    {N : Nat} (a : static_any N) (D D' : DeclType) :
    (a.has D = true → any_cast_ref D a = Except.ok a.buff) ∧
    (a.has D = false →
      any_cast_ref D a = Except.error ⟨a.type, typeid_of D⟩) ∧
    (a.has D = false → a.has D' = false →
      any_cast_ref D a = Except.error ⟨a.type, typeid_of D⟩ ∧
      any_cast_ref D' a = Except.error ⟨a.type, typeid_of D'⟩) := by
  refine ⟨fun h => ?_, fun h => ?_, fun h h' => ⟨?_, ?_⟩⟩ <;>
    simp_all [any_cast_ref]

/-- C4 witness: a container holding the type with identity 1, with two
distinct mismatching requested types (identities 2 and 3): both failures
store `from_` = 1 and differ only in `to_`. -/
theorem c4_witness :
    any_cast_ref ⟨⟨2, 4, none, true⟩, false, false, false⟩
        (⟨42, some ⟨1, 4, none, true⟩⟩ : static_any 8) =
      Except.error ⟨1, 2⟩ ∧
    any_cast_ref ⟨⟨3, 8, none, false⟩, false, false, false⟩
        (⟨42, some ⟨1, 4, none, true⟩⟩ : static_any 8) =
      Except.error ⟨1, 3⟩ :=
  (c4_any_cast_ref_success_and_typed_failure
      (⟨42, some ⟨1, 4, none, true⟩⟩ : static_any 8)
      ⟨⟨2, 4, none, true⟩, false, false, false⟩
      ⟨⟨3, 8, none, false⟩, false, false, false⟩).2.2
    (by decide) (by decide)

/-- C5: after `emplace<T>(args...)` the container reports `has<T>() = true`,
`has<U>() = false` for every type U distinct from T, and `type()` identifies
T; the previously held value was destroyed first — `emplace` is exactly the
update of the destroyed container with the newly constructed value and T's
dispatch function. -/
theorem c5_emplace_postconditions
    {N : Nat} (a : static_any N) (T U : DeclType) (v : Nat)
    (hTU : U.base.tid ≠ T.base.tid) :
    (a.emplace T v).has T = true ∧
    (a.emplace T v).has U = false ∧
    (a.emplace T v).type = T.base.tid ∧
    a.emplace T v =
      { a.destroy with buff := v,
                       function_ := some (get_function_for_type T) } := by
  refine ⟨?_, ?_, ?_, rfl⟩
  · simp [static_any.emplace, static_any.has, get_function_for_type]
  · by_cases hb : T.base = U.base
    · exact absurd (congrArg TypeInfo.tid hb).symm hTU
    · simp [static_any.emplace, static_any.has, get_function_for_type,
        operation, typeid_of, hb, hTU]
  · simp [static_any.emplace, static_any.type, operation, get_function_for_type]

/-- C5 witness: emplacing the type with identity 1 over a container holding
the type with identity 2; identity 2 is the distinct queried type. -/
theorem c5_witness :
    ((⟨9, some ⟨2, 8, none, false⟩⟩ : static_any 16).emplace
        ⟨⟨1, 4, none, true⟩, false, false, false⟩ 42).has
      ⟨⟨1, 4, none, true⟩, false, false, false⟩ = true ∧
    ((⟨9, some ⟨2, 8, none, false⟩⟩ : static_any 16).emplace
        ⟨⟨1, 4, none, true⟩, false, false, false⟩ 42).has
      ⟨⟨2, 8, none, false⟩, false, false, false⟩ = false ∧
    ((⟨9, some ⟨2, 8, none, false⟩⟩ : static_any 16).emplace
        ⟨⟨1, 4, none, true⟩, false, false, false⟩ 42).type = 1 ∧
    (⟨9, some ⟨2, 8, none, false⟩⟩ : static_any 16).emplace
        ⟨⟨1, 4, none, true⟩, false, false, false⟩ 42 =
      { (⟨9, some ⟨2, 8, none, false⟩⟩ : static_any 16).destroy with
          buff := 42,
          function_ :=
            some (get_function_for_type
              ⟨⟨1, 4, none, true⟩, false, false, false⟩) } :=
  c5_emplace_postconditions (⟨9, some ⟨2, 8, none, false⟩⟩ : static_any 16)
    ⟨⟨1, 4, none, true⟩, false, false, false⟩
    ⟨⟨2, 8, none, false⟩, false, false, false⟩ 42 (by decide)

/-- C6: the pointer-returning accessor `any_cast<T>(container*)` returns a
pointer to the held value (the buffer reinterpreted as T) when `has<T>()`
holds, and a null pointer otherwise; it is total and never signals a
failure. -/
theorem c6_any_cast_ptr_nullable_never_signals
    {N : Nat} (a : static_any N) (D : DeclType) :
    (a.has D = true → any_cast_ptr D a = some a.buff) ∧
    (a.has D = false → any_cast_ptr D a = none) := by
  constructor <;> intro h <;> simp [any_cast_ptr, h]

/-- C6 witness: a container holding the type with identity 1 and value 42 —
requesting identity 1 yields the pointer to 42, requesting identity 2 yields
null. -/
theorem c6_witness :
    any_cast_ptr ⟨⟨1, 4, none, true⟩, false, false, false⟩
        (⟨42, some ⟨1, 4, none, true⟩⟩ : static_any 8) = some 42 ∧
    any_cast_ptr ⟨⟨2, 4, none, true⟩, false, false, false⟩
        (⟨42, some ⟨1, 4, none, true⟩⟩ : static_any 8) = none :=
  ⟨(c6_any_cast_ptr_nullable_never_signals
        (⟨42, some ⟨1, 4, none, true⟩⟩ : static_any 8)
        ⟨⟨1, 4, none, true⟩, false, false, false⟩).1 (by decide),
   (c6_any_cast_ptr_nullable_never_signals
        (⟨42, some ⟨1, 4, none, true⟩⟩ : static_any 8)
        ⟨⟨2, 4, none, true⟩, false, false, false⟩).2 (by decide)⟩

/-- C7: a freshly default-constructed `static_any<N>` (whatever garbage its
buffer holds) reports `empty() = true`, `has<T>() = false` for every type T,
and `type()` returns the sentinel `typeid(void)` identity. -/
theorem c7_default_constructed_is_empty
    (N g : Nat) (D : DeclType) :
    (static_any.mkDefault N g).empty = true ∧
    (static_any.mkDefault N g).has D = false ∧
    (static_any.mkDefault N g).type = voidTypeId :=
  ⟨rfl, rfl, rfl⟩

/-- C8: for every trivially copyable type T with `sizeof(T) ≤ N`, assigning
or constructing a `static_any_t<N>` from a value of type T copies exactly the
byte representation of the value into the buffer, and a subsequent `get<T>()`
reads back exactly those bytes; a type that is not trivially copyable or does
not fit is rejected at compile time on both paths. -/
theorem c8_static_any_t_byte_roundtrip_and_rejection
    {N : Nat} (T : TypeInfo) (bytes g : List Nat) (a : static_any_t N)
    (hlen : bytes.length = T.size)
    (hTC : T.triviallyCopyable = true) (hsz : T.size ≤ N)
    (U : TypeInfo) (ubytes : List Nat)
    (hU : ¬(U.triviallyCopyable = true ∧ U.size ≤ N)) :
    (static_any_t.ctor_from_value N T bytes g).map (static_any_t.get T) =
      some bytes ∧
    (a.assign_from_value T bytes).map (static_any_t.get T) = some bytes ∧
    static_any_t.ctor_from_value N U ubytes g = none ∧
    a.assign_from_value U ubytes = none := by
  have hsz' : bytes.length ≤ N := hlen ▸ hsz
  refine ⟨?_, ?_, ?_, ?_⟩
  · simp [static_any_t.ctor_from_value, static_any_t.copy, hTC, hsz, hsz',
      static_any_t.get, memcpy_front, ← hlen, List.take_left]
  · simp [static_any_t.assign_from_value, static_any_t.copy, hTC, hsz, hsz',
      static_any_t.get, memcpy_front, ← hlen, List.take_left]
  · simp [static_any_t.ctor_from_value, static_any_t.copy, hU]
  · simp [static_any_t.assign_from_value, static_any_t.copy, hU]

/-- C8 witness: a 4-byte trivially copyable value with representation
`[1, 2, 3, 4]` stored into a `static_any_t<8>`; an 8-byte
non-trivially-copyable type is rejected. -/
theorem c8_witness :
    (static_any_t.ctor_from_value 8 ⟨1, 4, none, true⟩ [1, 2, 3, 4]
        [9, 9, 9, 9, 9, 9, 9, 9]).map
      (static_any_t.get ⟨1, 4, none, true⟩) = some [1, 2, 3, 4] ∧
    (({ buff := [9, 9, 9, 9, 9, 9, 9, 9] } :
        static_any_t 8).assign_from_value ⟨1, 4, none, true⟩
          [1, 2, 3, 4]).map
      (static_any_t.get ⟨1, 4, none, true⟩) = some [1, 2, 3, 4] ∧
    static_any_t.ctor_from_value 8 ⟨2, 8, none, false⟩ [0, 0, 0, 0, 0, 0, 0, 0]
        [9, 9, 9, 9, 9, 9, 9, 9] = none ∧
    ({ buff := [9, 9, 9, 9, 9, 9, 9, 9] } :
        static_any_t 8).assign_from_value ⟨2, 8, none, false⟩
      [0, 0, 0, 0, 0, 0, 0, 0] = none :=
  c8_static_any_t_byte_roundtrip_and_rejection ⟨1, 4, none, true⟩
    [1, 2, 3, 4] [9, 9, 9, 9, 9, 9, 9, 9]
    ({ buff := [9, 9, 9, 9, 9, 9, 9, 9] } : static_any_t 8)
    (by decide) (by decide) (by decide) ⟨2, 8, none, false⟩
    [0, 0, 0, 0, 0, 0, 0, 0] (by decide)

/-- C9: the stored and queried types are normalized by stripping top-level
const/volatile qualifiers and references before the dispatch routine is
selected or compared: all decorations of the same base type select the same
dispatch routine, and a container holding a value of base type T answers
`has = true` for T, `const T`, `T&`, and any other decoration of T. -/
theorem c9_cv_ref_stripped_before_dispatch
    {N : Nat} (a : static_any N) (T : TypeInfo) (c v r c' v' r' : Bool)
    (h : a.function_ = some T) :
    get_function_for_type ⟨T, c, v, r⟩ = get_function_for_type ⟨T, c', v', r'⟩ ∧
    a.has ⟨T, c, v, r⟩ = true ∧
    a.has ⟨T, c, v, r⟩ = a.has ⟨T, c', v', r'⟩ := by
  obtain ⟨b, f⟩ := a
  cases h
  refine ⟨rfl, ?_, ?_⟩ <;> simp [static_any.has, get_function_for_type]

/-- C9 witness: a container holding the base type with identity 1; the
queries decorated as `const T` and as `T&` both succeed and agree. -/
theorem c9_witness :
    get_function_for_type ⟨⟨1, 4, none, true⟩, true, false, false⟩ =
      get_function_for_type ⟨⟨1, 4, none, true⟩, false, false, true⟩ ∧
    (⟨42, some ⟨1, 4, none, true⟩⟩ : static_any 8).has
      ⟨⟨1, 4, none, true⟩, true, false, false⟩ = true ∧
    (⟨42, some ⟨1, 4, none, true⟩⟩ : static_any 8).has
        ⟨⟨1, 4, none, true⟩, true, false, false⟩ =
      (⟨42, some ⟨1, 4, none, true⟩⟩ : static_any 8).has
        ⟨⟨1, 4, none, true⟩, false, false, true⟩ :=
  c9_cv_ref_stripped_before_dispatch
    (⟨42, some ⟨1, 4, none, true⟩⟩ : static_any 8) ⟨1, 4, none, true⟩
    true false false false false true rfl

/-- C10: invoking the reference-returning accessor on an empty container
raises `bad_any_cast` whose stored-type field is the sentinel `typeid(void)`
identity and whose requested-type field is the requested type — a signaled,
recoverable failure, not a fatal contract violation. -/
theorem c10_any_cast_ref_on_empty_reports_void_stored
    {N : Nat} (a : static_any N) (D : DeclType) (h : a.function_ = none) :
    any_cast_ref D a =
      Except.error { from_ := voidTypeId, to_ := typeid_of D } := by
  obtain ⟨b, f⟩ := a
  cases h
  simp [any_cast_ref, static_any.has, static_any.type]

/-- C10 witness: an empty capacity-8 container queried for the type with
identity 5. -/
theorem c10_witness :
    any_cast_ref ⟨⟨5, 4, none, true⟩, false, false, false⟩
        (static_any.mkDefault 8 0) =
      Except.error { from_ := voidTypeId, to_ := 5 } :=
  c10_any_cast_ref_on_empty_reports_void_stored (static_any.mkDefault 8 0)
    ⟨⟨5, 4, none, true⟩, false, false, false⟩ rfl
